import Mathlib

/-
Verification development for the Fylo filesystem library.
The definitions below are shallow embeddings of the TypeScript sources:
  - src/watchers/BaseWatcher.ts        (stop, setWatcher)
  - src/watchers/DirectoryWatcher/DirectoryWatcher.ts
  - src/watchers/FileWatcher/FileWatcher.ts
  - src/streams/WriteStream/WriteStream.ts
  - src/constants (bufferEncodings, allowedFlags)
JavaScript Set objects are modelled as duplicate-free lists in insertion
order; JavaScript values relevant to option validation are modelled by the
JsVal type; the single-threaded event loop relevant to the open() timeout
is modelled by an explicit, time-ordered event list.
-/

namespace Fylo

/-- Membership test of a JavaScript Set of strings (Set.prototype.has). -/
def jsSetHas (s : List String) (x : String) : Bool :=
  s.contains x

/-- Insertion into a JavaScript Set of strings (Set.prototype.add):
no effect when the element is already present, otherwise appended in
insertion order. -/
def jsSetAdd (s : List String) (x : String) : List String :=
  if jsSetHas s x then s else s ++ [x]

/-- Deletion from a JavaScript Set of strings (Set.prototype.delete). -/
def jsSetDelete (s : List String) (x : String) : List String :=
  s.filter (fun y => y ≠ x)

/-- Construction of a JavaScript Set from an array (new Set(arr)):
inserts the elements left to right, keeping the first occurrence. -/
def jsSetFromList (l : List String) : List String :=
  l.foldl jsSetAdd []

/-- Model of path.join(watchPath, name) for a directory path and a plain
entry name, as used by DirectoryWatcher when emitting full paths. -/
def joinPath (dir name : String) : String :=
  dir ++ "/" ++ name

/-- Events emitted by the watchers (the string is the full path argument). -/
inductive WEvent where
  | added (path : String)
  | removed (path : String)
  | changed (path : String)
  | errorEv
  | stopped
deriving DecidableEq, Repr

/-- Outcome of the asynchronous fs.stat call made by handleRenameEvent:
the error with code ENOENT, any other error, or a successful stat
carrying the isFile() and isDirectory() answers. -/
inductive StatOutcome where
  | enoent
  | otherError
  | statOk (isFile isDirectory : Bool)
deriving DecidableEq, Repr

/-- The part of the DirectoryWatcher state that handleRenameEvent touches:
the previousFiles Set. -/
structure DirPrevState where
  previousFiles : List String
deriving DecidableEq, Repr

/-- Embedding of DirectoryWatcher.handleRenameEvent (the fs.stat callback
body): on ENOENT emit removed(fullPath) and delete fullPath from the set;
on another stat error emit an error event; on a successful stat, only when
the entry is a file or a directory and fullPath is not yet in the set,
emit added(fullPath) and insert it. -/
def handleRenameEvent (st : DirPrevState) (fullPath : String) (res : StatOutcome) :
    DirPrevState × List WEvent :=
  match res with
  | .enoent => (⟨jsSetDelete st.previousFiles fullPath⟩, [.removed fullPath])
  | .otherError => (st, [.errorEv])
  | .statOk isFile isDirectory =>
    if isFile || isDirectory then
      if jsSetHas st.previousFiles fullPath then (st, [])
      else (⟨jsSetAdd st.previousFiles fullPath⟩, [.added fullPath])
    else (st, [])

/-- Embedding of one successful poll callback of
DirectoryWatcher.pollDirectory: given the previousFiles set and the
current fs.readdir listing, build the current Set, emit added(fullPath)
for every current entry missing from previousFiles, then removed(fullPath)
for every previous entry missing from the current Set, and return the
current Set as the new previousFiles. -/
def pollTick (watchPath : String) (previousFiles : List String) (currentFiles : List String) :
    List String × List WEvent :=
  let currentFilesSet := jsSetFromList currentFiles
  let addedFiles := currentFilesSet.filter (fun f => !(jsSetHas previousFiles f))
  let removedFiles := previousFiles.filter (fun f => !(jsSetHas currentFilesSet f))
  (currentFilesSet,
    addedFiles.map (fun f => WEvent.added (joinPath watchPath f)) ++
      removedFiles.map (fun f => WEvent.removed (joinPath watchPath f)))

/-- Actions performed synchronously by DirectoryWatcher.pollDirectory. -/
inductive PollAction where
  | setIntervalPoll (ms : Nat)
  | pollNow
deriving DecidableEq, Repr

/-- Embedding of the synchronous body of DirectoryWatcher.pollDirectory:
it registers the interval timer and then invokes poll() once immediately. -/
def pollDirectoryStart (pollingInterval : Nat) : List PollAction :=
  [.setIntervalPoll pollingInterval, .pollNow]

/-- The watcher fields relevant to start, stop and error recovery:
DirectoryWatcher.pollingIntervalId plus the BaseWatcher fields watcher
and isWatching (native handles and interval ids are numbers here). -/
structure WatcherState where
  pollingIntervalId : Option Nat
  watcher : Option Nat
  isWatching : Bool
deriving DecidableEq, Repr

/-- Externally visible actions of the watcher stop and recovery paths. -/
inductive WAction where
  | clearPollInterval (id : Nat)
  | closeNativeWatcher (h : Nat)
  | emitStopped
  | emitErrorEvent
  | scheduleStart (delayMs : Nat)
deriving DecidableEq, Repr

/-- Embedding of BaseWatcher.stop: only when isWatching is set and a
native watcher handle is held, close the handle, clear it, clear the
flag and emit the stopped event; otherwise do nothing. -/
def baseStop (st : WatcherState) : WatcherState × List WAction :=
  if st.isWatching then
    match st.watcher with
    | some h =>
      ({ st with watcher := none, isWatching := false }, [.closeNativeWatcher h, .emitStopped])
    | none => (st, [])
  else (st, [])

/-- Embedding of DirectoryWatcher.stop: clear the polling interval when
one is active, then delegate to BaseWatcher.stop. -/
def dwStop (st : WatcherState) : WatcherState × List WAction :=
  match st.pollingIntervalId with
  | some id =>
    ((baseStop { st with pollingIntervalId := none }).1,
      .clearPollInterval id :: (baseStop { st with pollingIntervalId := none }).2)
  | none => baseStop st

/-- Embedding of DirectoryWatcher.recoverWatcher: a full stop followed by
a setTimeout that calls start() again after a fixed 1000 ms delay. -/
def recoverWatcher (st : WatcherState) : WatcherState × List WAction :=
  ((dwStop st).1, (dwStop st).2 ++ [.scheduleStart 1000])

/-- Embedding of the native watch error handler installed by
DirectoryWatcher.start: emit the error event, then recoverWatcher. -/
def onNativeWatchError (st : WatcherState) : WatcherState × List WAction :=
  ((recoverWatcher st).1, .emitErrorEvent :: (recoverWatcher st).2)

/-- The restart delay carried by a scheduleStart action, if any. -/
def scheduleDelayOf : WAction → Option Nat
  | .scheduleStart d => some d
  | _ => none

/-- The restart delays produced by n successive native watch errors. -/
def watchErrorDelays : WatcherState → Nat → List Nat
  | _, 0 => []
  | st, n + 1 =>
    ((onNativeWatchError st).2.filterMap scheduleDelayOf) ++
      watchErrorDelays (onNativeWatchError st).1 n

/-- Embedding of DirectoryWatcher.start in polling mode: it only calls
pollDirectory, which stores the new interval id; neither setWatcher nor
the isWatching flag is touched. -/
def dwStartPolling (st : WatcherState) (pollingInterval : Nat) (intervalId : Nat) :
    WatcherState × List PollAction :=
  ({ st with pollingIntervalId := some intervalId }, pollDirectoryStart pollingInterval)

/-- A JavaScript Date object: its time value in milliseconds together with
an object identity, because the strict equality operators on objects
compare references, not time values. -/
structure JsDate where
  timeMs : Int
  objId : Nat
deriving DecidableEq, Repr

/-- JavaScript strict equality on two Date objects: reference comparison. -/
def jsStrictEqDate (a b : JsDate) : Bool :=
  a.objId == b.objId

/-- Embedding of the fs.watchFile listener installed by FileWatcher.start
in polling mode: emit changed(path) when curr.mtime !== prev.mtime, where
mtime is a Date object and !== is strict (reference) inequality. -/
def fileWatcherPollCallback (watchPath : String) (currMtime prevMtime : JsDate) : List WEvent :=
  if !(jsStrictEqDate currMtime prevMtime) then [.changed watchPath] else []

/-- A JavaScript value as far as option validation observes it: a number,
a string, a boolean, some other object, or undefined. -/
inductive JsVal where
  | num (n : Int)
  | str (s : String)
  | boolean (b : Bool)
  | object
  | undef
deriving DecidableEq, Repr

/-- The typeof v === "number" test. -/
def JsVal.isNumber : JsVal → Bool
  | .num _ => true
  | _ => false

/-- The typeof v === "boolean" test. -/
def JsVal.isBoolean : JsVal → Bool
  | .boolean _ => true
  | _ => false

/-- The typeof v === "object" test for the values modelled here. -/
def JsVal.isObject : JsVal → Bool
  | .object => true
  | _ => false

/-- JavaScript String(v) conversion for the modelled values. -/
def jsString : JsVal → String
  | .num n => toString n
  | .str s => s
  | .boolean b => if b then "true" else "false"
  | .object => "[object Object]"
  | .undef => "undefined"

/-- The bufferEncodings Set from src/constants, in insertion order. -/
def bufferEncodingsList : List String :=
  ["ascii", "utf8", "utf-8", "utf16le", "ucs2", "ucs-2", "base64", "base64url",
    "latin1", "binary", "hex"]

/-- The allowedFlags Set from src/constants, in insertion order. -/
def allowedFlagsList : List String :=
  ["r", "r+", "rs", "rs+", "w", "wx", "w+", "wx+", "a", "ax", "a+", "ax+"]

/-- The bufferEncodings.has(v) test: false outright for non-strings. -/
def bufferEncodingsHas (v : JsVal) : Bool :=
  match v with
  | .str s => bufferEncodingsList.contains s
  | _ => false

/-- The allowedFlags.has(v) test: false outright for non-strings. -/
def allowedFlagsHas (v : JsVal) : Bool :=
  match v with
  | .str s => allowedFlagsList.contains s
  | _ => false

/-- The IWriteStreamOptions object fields inspected by
validateStreamOptions; a missing field is none (undefined is only used
for a field explicitly set to undefined, which the source treats as
missing as well, so none covers it). -/
structure StreamOptionsObject where
  flags : Option JsVal := none
  encoding : Option JsVal := none
  fd : Option JsVal := none
  mode : Option JsVal := none
  autoClose : Option JsVal := none
  emitClose : Option JsVal := none
  start : Option JsVal := none
  highWaterMark : Option JsVal := none
deriving DecidableEq, Repr

/-- The options argument of open(): a bare encoding string, an options
object, or null. -/
inductive WriteStreamOptions where
  | strOpt (s : String)
  | objOpt (o : StreamOptionsObject)
  | nullOpt
deriving DecidableEq, Repr

/-- One validation step: when the field is present and fails the check,
produce its error message. -/
def checkField (field : Option JsVal) (bad : JsVal → Bool) (msg : JsVal → String) :
    Option String :=
  match field with
  | some v => if bad v then some (msg v) else none
  | none => none

/-- Sequencing of validation steps: the first thrown error wins. -/
def firstErr (a : Option String) (b : Option String) : Option String :=
  match a with
  | some m => some m
  | none => b

/-- Embedding of the object branch of WriteStream.validateStreamOptions,
checking the fields in source order and throwing the first failure. -/
def validateStreamOptionsObject (o : StreamOptionsObject) : Option String :=
  firstErr
    (checkField o.flags (fun v => !allowedFlagsHas v)
      (fun v => "Invalid flag: " ++ jsString v ++ ". Allowed flags are: " ++
        String.intercalate ", " allowedFlagsList ++ "."))
    (firstErr
      (checkField o.encoding (fun v => !bufferEncodingsHas v)
        (fun v => "Invalid encoding: " ++ jsString v ++ ". Allowed encodings are: " ++
          String.intercalate ", " bufferEncodingsList ++ "."))
      (firstErr
        (checkField o.fd (fun v => !(v.isNumber || v.isObject))
          (fun v => "Invalid fd: " ++ jsString v ++ ". It must be a number or a FileHandle."))
        (firstErr
          (checkField o.mode (fun v => !v.isNumber)
            (fun v => "Invalid mode: " ++ jsString v ++ ". It must be a number."))
          (firstErr
            (checkField o.autoClose (fun v => !v.isBoolean)
              (fun v => "Invalid autoClose: " ++ jsString v ++ ". It must be a boolean."))
            (firstErr
              (checkField o.emitClose (fun v => !v.isBoolean)
                (fun v => "Invalid emitClose: " ++ jsString v ++ ". It must be a boolean."))
              (firstErr
                (checkField o.start (fun v => !v.isNumber)
                  (fun v => "Invalid start: " ++ jsString v ++ ". It must be a number."))
                (checkField o.highWaterMark (fun v => !v.isNumber)
                  (fun v => "Invalid highWaterMark: " ++ jsString v ++
                    ". It must be a number."))))))))

/-- Embedding of WriteStream.validateStreamOptions: the string shorthand
must be a known encoding, null is rejected, an object goes through the
field checks. -/
def validateStreamOptions : WriteStreamOptions → Option String
  | .strOpt s =>
    if !bufferEncodingsList.contains s then
      some ("Invalid encoding: " ++ s ++ ". Allowed encodings are: " ++
        String.intercalate ", " bufferEncodingsList ++ ".")
    else none
  | .nullOpt => some "Options must be a non-null object."
  | .objOpt o => validateStreamOptionsObject o

/-- The WriteStream fields relevant to the lifecycle claims: the native
stream handle (none models the null reference) and the isOpen flag. -/
structure WriteStreamState where
  stream : Option Nat
  isOpen : Bool
deriving DecidableEq, Repr

/-- Calls into the native filesystem collaborator. -/
inductive NativeCall where
  | createWriteStream (path : String)
deriving DecidableEq, Repr

/-- How the synchronous body of open() can fail. -/
inductive OpenFailure where
  | alreadyOpen (msg : String)
  | validationError (msg : String)
deriving DecidableEq, Repr

/-- Embedding of the synchronous body of WriteStream.open (the promise
executor up to fs.createWriteStream): reject when isOpen is already true,
throw when the options fail validation, otherwise create the native
stream and store its handle. -/
def openBody (st : WriteStreamState) (filePath : String) (options : WriteStreamOptions)
    (newHandle : Nat) : WriteStreamState × List NativeCall × Option OpenFailure :=
  if st.isOpen then (st, [], some (.alreadyOpen "Stream is already open."))
  else
    match validateStreamOptions options with
    | some msg => (st, [], some (.validationError msg))
    | none => ({ st with stream := some newHandle }, [.createWriteStream filePath], none)

/-- Recognizer for a validation failure of openBody. -/
def isValidationFailure : Option OpenFailure → Bool
  | some (.validationError _) => true
  | _ => false

/-- Actions performed by the close and destroy paths of WriteStream. -/
inductive ClosureAction where
  | logErrorAction (msg : String)
  | rejectTimeout (msg : String)
  | removeAllListeners
  | releaseHandle
  | resolveOp
deriving DecidableEq, Repr

/-- Which of the two closing operations is running. -/
inductive ClosureKind where
  | closeKind
  | destroyKind
deriving DecidableEq, Repr

/-- The action name interpolated into the timeout message. -/
def closureKindName : ClosureKind → String
  | .closeKind => "close"
  | .destroyKind => "destroy"

/-- Embedding of the setTimeout callback installed by
WriteStream.handleStreamClosure: it logs the timeout error and rejects
the pending promise; it performs no listener removal and no handle
release. -/
def closureOnTimeout (k : ClosureKind) : List ClosureAction :=
  [.logErrorAction ("Stream " ++ closureKindName k ++ " timed out."),
    .rejectTimeout ("Stream " ++ closureKindName k ++ " timed out.")]

/-- Embedding of WriteStream.cleanupStream: when a native stream is held,
remove all its listeners, clear the stream reference (the handle release)
and clear isOpen; otherwise do nothing. -/
def cleanupStream (st : WriteStreamState) : WriteStreamState × List ClosureAction :=
  match st.stream with
  | some _ => (⟨none, false⟩, [.removeAllListeners, .releaseHandle])
  | none => (st, [])

/-- Embedding of the onClose handler of WriteStream.handleStreamClosure,
run when the native close acknowledgment arrives for close() or
destroy(): clear isOpen, run cleanupStream, then resolve the promise. -/
def onCloseHandler (st : WriteStreamState) : WriteStreamState × List ClosureAction :=
  ((cleanupStream { st with isOpen := false }).1,
    (cleanupStream { st with isOpen := false }).2 ++ [.resolveOp])

/-- Result of WriteStream.getNativeStream. -/
inductive GetStreamResult where
  | okStream (h : Nat)
  | notInitialized (msg : String)
deriving DecidableEq, Repr

/-- Embedding of WriteStream.getNativeStream: throw when the stream
reference is null, otherwise return the handle. -/
def getNativeStream (st : WriteStreamState) : GetStreamResult :=
  match st.stream with
  | none => .notInitialized "Stream is not initialized."
  | some h => .okStream h

/-- Embedding of WriteStream.isStreamOpen. -/
def isStreamOpen (st : WriteStreamState) : Bool :=
  st.isOpen

/-- How the promise returned by open() can settle. -/
inductive PromiseOutcome where
  | fulfilled
  | rejectedWith (msg : String)
deriving DecidableEq, Repr

/-- The event-loop state of one open() call after its synchronous body
ran: whether and how the returned promise settled, the value of isOpen at
the moment it settled, whether the withTimeout timer is still armed, the
isOpen flag, and whether the timer path requested a best-effort close. -/
structure OpenLoopState where
  settled : Option PromiseOutcome
  settleIsOpen : Bool
  timerActive : Bool
  isOpen : Bool
  closeRequested : Bool
deriving DecidableEq, Repr

/-- The state right after the synchronous body of open(): the listeners
are installed, the withTimeout timer is armed, nothing has settled. -/
def initialOpenLoopState : OpenLoopState :=
  { settled := none, settleIsOpen := false, timerActive := true,
    isOpen := false, closeRequested := false }

/-- The asynchronous events that can settle the promise returned by
open(): the then-callback of withTimeout on the already-resolved
Promise.resolve(), the native open acknowledgment, and the timer. -/
inductive OpenLoopEvent where
  | thenResolve
  | nativeAck
  | timerFire
deriving DecidableEq, Repr

/-- First settlement wins: a JavaScript promise ignores later resolve and
reject calls; the isOpen flag at the settling moment is recorded. -/
def settleWith (s : OpenLoopState) (o : PromiseOutcome) : OpenLoopState :=
  match s.settled with
  | some _ => s
  | none => { s with settled := some o, settleIsOpen := s.isOpen }

/-- One event-loop step of the open() call, following the source:
thenResolve clears the timer and resolves (withTimeout then-branch,
forwarded by .then(resolve)); nativeAck sets isOpen and resolves (the
once open listener); timerFire, only while the timer is armed, requests
the best-effort close and rejects with the timeout error. -/
def openLoopStep (s : OpenLoopState) (e : OpenLoopEvent) : OpenLoopState :=
  match e with
  | .thenResolve => settleWith { s with timerActive := false } .fulfilled
  | .nativeAck => settleWith { s with isOpen := true } .fulfilled
  | .timerFire =>
    if s.timerActive then
      settleWith { s with closeRequested := true } (.rejectedWith "open timed out.")
    else s

/-- The order in which the three events reach the event loop: the
then-callback is a microtask of the already-resolved Promise.resolve()
and therefore runs before every macrotask; the acknowledgment (when it
arrives at all, at macrotask time ackTime) and the timer (at macrotask
time timeoutMs) follow in time order. -/
def openEventOrder (ackTime : Option Nat) (timeoutMs : Nat) : List OpenLoopEvent :=
  OpenLoopEvent.thenResolve ::
    (match ackTime with
      | none => [.timerFire]
      | some t => if t ≤ timeoutMs then [.nativeAck, .timerFire] else [.timerFire, .nativeAck])

/-- The complete run of one open() call: fold the event-loop steps over
the time-ordered events. -/
def openRun (ackTime : Option Nat) (timeoutMs : Nat) : OpenLoopState :=
  (openEventOrder ackTime timeoutMs).foldl openLoopStep initialOpenLoopState

/-- Claim C1 (code bug, divergence witness): with timeoutMs = 1 and a
native open acknowledgment that never arrives, the promise returned by
open() nevertheless settles fulfilled — the withTimeout then-branch on
the pre-resolved Promise.resolve() runs as a microtask, clears the timer
before it can fire and resolves — while the controller is still not open;
the timeout rejection and the best-effort close never happen. -/
theorem openRun_resolves_without_ack :
    (openRun none 1).settled = some .fulfilled ∧
    (openRun none 1).settleIsOpen = false ∧
    (openRun none 1).isOpen = false ∧
    (openRun none 1).closeRequested = false :=
  ⟨rfl, rfl, rfl, rfl⟩

/-- Counterexample to claim C2 as stated: a native rename event whose
stat succeeds but reports neither a file nor a directory (for example a
FIFO or a socket) for an untracked path emits no added event at all and
does not add the path to the tracked set. -/
theorem handleRename_statOk_other_no_event :
    handleRenameEvent ⟨[]⟩ "/watched/fifo" (.statOk false false) = (⟨[]⟩, []) ∧
    WEvent.added "/watched/fifo" ∉
      (handleRenameEvent ⟨[]⟩ "/watched/fifo" (.statOk false false)).2 := by
  exact ⟨rfl, by decide⟩

/-- Claim C2 (amended): on a native rename event, a stat failure with
NotFound emits exactly one removed(fullPath) and discards the path from
the tracked set; a successful stat that reports a file or a directory
for a path not already tracked emits exactly one added(fullPath) and adds
the path; a successful stat for an already-tracked path emits nothing and
leaves the set unchanged; and a successful stat reporting neither a file
nor a directory emits nothing. -/
theorem handleRename_disambiguation (st : DirPrevState) (p : String) :
    (handleRenameEvent st p .enoent =
      (⟨jsSetDelete st.previousFiles p⟩, [.removed p])) ∧
    (∀ f d : Bool, (f || d) = true → jsSetHas st.previousFiles p = false →
      handleRenameEvent st p (.statOk f d) =
        (⟨st.previousFiles ++ [p]⟩, [.added p])) ∧
    (∀ f d : Bool, jsSetHas st.previousFiles p = true →
      handleRenameEvent st p (.statOk f d) = (st, [])) ∧
    (∀ f d : Bool, (f || d) = false →
      handleRenameEvent st p (.statOk f d) = (st, [])) := by
  refine ⟨rfl, ?_, ?_, ?_⟩
  · intro f d hfd hhas
    simp [handleRenameEvent, hfd, hhas, jsSetAdd]
  · intro f d hhas
    cases hfd : (f || d) <;> simp [handleRenameEvent, hfd, hhas]
  · intro f d hfd
    simp [handleRenameEvent, hfd]

/-- Witness for the amended claim C2 at concrete inputs: an untracked
path that stats as a file is added and emits added once; a path that no
longer stats emits removed once and is discarded. -/
theorem handleRename_disambiguation_witness :
    handleRenameEvent ⟨["/w/a"]⟩ "/w/b" (.statOk true false) =
      (⟨["/w/a", "/w/b"]⟩, [.added "/w/b"]) ∧
    handleRenameEvent ⟨["/w/a"]⟩ "/w/a" .enoent = (⟨[]⟩, [.removed "/w/a"]) := by
  constructor
  · exact ((handleRename_disambiguation ⟨["/w/a"]⟩ "/w/b").2.1 true false (by decide)
      (by decide)).trans (by decide)
  · exact ((handleRename_disambiguation ⟨["/w/a"]⟩ "/w/a").1).trans (by decide)

/-- Counterexample to claim C4 as stated: with an open still in flight —
the native stream was created but the open acknowledgment has not
arrived, so isOpen is still false and the state is not Closed — a second
open() is not rejected with the AlreadyOpen error and issues a second
createWriteStream call, duplicating the native resource. -/
theorem openBody_inflight_double_open :
    (openBody ⟨none, false⟩ "/tmp/out.txt" (.objOpt {}) 0).1 = ⟨some 0, false⟩ ∧
    (openBody ⟨some 0, false⟩ "/tmp/out.txt" (.objOpt {}) 1).2.2 = none ∧
    (openBody ⟨some 0, false⟩ "/tmp/out.txt" (.objOpt {}) 1).2.1 =
      [.createWriteStream "/tmp/out.txt"] :=
  ⟨rfl, rfl, rfl⟩

/-- Claim C4 (amended): once the controller is actually open
(isOpen = true), a further open() call fails immediately with the
AlreadyOpen error, makes no native call and leaves the state unchanged;
the guard only inspects isOpen, so it does not cover an open that is
still in flight. -/
theorem openBody_alreadyOpen (st : WriteStreamState) (filePath : String)
    (options : WriteStreamOptions) (newHandle : Nat) (h : st.isOpen = true) :
    openBody st filePath options newHandle =
      (st, [], some (.alreadyOpen "Stream is already open.")) := by
  simp [openBody, h]

/-- Witness for the amended claim C4 on a concrete open controller. -/
theorem openBody_alreadyOpen_witness :
    openBody ⟨some 0, true⟩ "/tmp/out.txt" (.objOpt {}) 1 =
      (⟨some 0, true⟩, [], some (.alreadyOpen "Stream is already open.")) :=
  openBody_alreadyOpen ⟨some 0, true⟩ "/tmp/out.txt" (.objOpt {}) 1 rfl

/-- Counterexample to claim C5 as stated: the timer callback installed by
handleStreamClosure for close() only logs the timeout error and rejects;
no listener removal and no handle release appears among its actions, so
no best-effort resource release is attempted before the rejection. -/
theorem closureTimeout_no_release :
    closureOnTimeout .closeKind =
      [.logErrorAction "Stream close timed out.",
        .rejectTimeout "Stream close timed out."] ∧
    ClosureAction.removeAllListeners ∉ closureOnTimeout .closeKind ∧
    ClosureAction.releaseHandle ∉ closureOnTimeout .closeKind := by
  exact ⟨rfl, by decide, by decide⟩

/-- Claim C5 (amended): when the timer guarding close(timeoutMs) or
destroy(timeoutMs) expires, the operation logs and rejects with the
timeout error and attempts no resource release at all; listener removal
and handle release happen only in the close and error acknowledgment
handlers. -/
theorem closureTimeout_rejects_without_release (k : ClosureKind) :
    closureOnTimeout k =
      [.logErrorAction ("Stream " ++ closureKindName k ++ " timed out."),
        .rejectTimeout ("Stream " ++ closureKindName k ++ " timed out.")] ∧
    ClosureAction.removeAllListeners ∉ closureOnTimeout k ∧
    ClosureAction.releaseHandle ∉ closureOnTimeout k := by
  cases k <;> exact ⟨rfl, by decide, by decide⟩

/-- Claim C6: after the close acknowledgment handler shared by close()
and destroy() runs on a controller holding a native stream, isStreamOpen
returns false, the listeners were removed, the handle was released, the
pending promise resolved, and getNativeStream fails with the
NotInitialized error. -/
theorem closeResolved_released (st : WriteStreamState) (h : Nat) (hs : st.stream = some h) :
    isStreamOpen (onCloseHandler st).1 = false ∧
    getNativeStream (onCloseHandler st).1 = .notInitialized "Stream is not initialized." ∧
    ClosureAction.removeAllListeners ∈ (onCloseHandler st).2 ∧
    ClosureAction.releaseHandle ∈ (onCloseHandler st).2 ∧
    ClosureAction.resolveOp ∈ (onCloseHandler st).2 := by
  simp [onCloseHandler, cleanupStream, hs, isStreamOpen, getNativeStream]

/-- Witness for claim C6 on a concrete open controller holding handle 5. -/
theorem closeResolved_released_witness :
    isStreamOpen (onCloseHandler ⟨some 5, true⟩).1 = false ∧
    getNativeStream (onCloseHandler ⟨some 5, true⟩).1 =
      .notInitialized "Stream is not initialized." ∧
    ClosureAction.removeAllListeners ∈ (onCloseHandler ⟨some 5, true⟩).2 ∧
    ClosureAction.releaseHandle ∈ (onCloseHandler ⟨some 5, true⟩).2 ∧
    ClosureAction.resolveOp ∈ (onCloseHandler ⟨some 5, true⟩).2 :=
  closeResolved_released ⟨some 5, true⟩ 5 rfl

/-- Adding a fresh element to a set appends it. -/
theorem jsSetAdd_of_not_mem (s : List String) (x : String) (h : x ∉ s) :
    jsSetAdd s x = s ++ [x] := by
  simp [jsSetAdd, jsSetHas, h]

/-- Folding set insertion over fresh elements appends them in order. -/
theorem foldl_jsSetAdd_of_nodup (l : List String) :
    ∀ acc : List String, (acc ++ l).Nodup → l.foldl jsSetAdd acc = acc ++ l := by
  induction l with
  | nil => intro acc _; simp
  | cons a t ih =>
    intro acc h
    have hnd := h
    rw [List.nodup_append] at hnd
    have ha : a ∉ acc := fun hmem => hnd.2.2 hmem (List.mem_cons_self a t)
    rw [List.foldl_cons, jsSetAdd_of_not_mem acc a ha,
      ih (acc ++ [a]) (by simpa [List.append_assoc] using h)]
    simp

/-- A Set built from a duplicate-free array holds the same list. -/
theorem jsSetFromList_of_nodup (l : List String) (h : l.Nodup) : jsSetFromList l = l := by
  simpa using foldl_jsSetAdd_of_nodup l [] (by simpa using h)

/-- Joining a fixed directory with entry names is injective. -/
theorem joinPath_injective (dir : String) : Function.Injective (joinPath dir) := by
  intro a b hab
  have h2 := congrArg String.data hab
  simp [joinPath, String.data_append] at h2
  exact String.ext h2

/-- Claim C3: on a poll tick with duplicate-free previous set P and
current listing C, the watcher emits exactly one added(fullPath) for each
name in C minus P and exactly one removed(fullPath) for each name in
P minus C, nothing for names present in both or in neither, and the
current listing becomes the new previous set; moreover pollDirectory
issues its first poll immediately at start, not only after the first
interval. -/
theorem pollTick_diff (watchPath : String) (prev current : List String) (ms : Nat)
    (hP : prev.Nodup) (hC : current.Nodup) :
    ((pollTick watchPath prev current).1 = current) ∧
    (∀ n : String,
      ((pollTick watchPath prev current).2.count (WEvent.added (joinPath watchPath n)) =
        if n ∈ current ∧ n ∉ prev then 1 else 0) ∧
      ((pollTick watchPath prev current).2.count (WEvent.removed (joinPath watchPath n)) =
        if n ∈ prev ∧ n ∉ current then 1 else 0)) ∧
    PollAction.pollNow ∈ pollDirectoryStart ms := by
  have hset : jsSetFromList current = current := jsSetFromList_of_nodup current hC
  have hev : (pollTick watchPath prev current).2 =
      (current.filter (fun f => !(jsSetHas prev f))).map
          (fun f => WEvent.added (joinPath watchPath f)) ++
        (prev.filter (fun f => !(jsSetHas current f))).map
          (fun f => WEvent.removed (joinPath watchPath f)) := by
    simp [pollTick, hset]
  have hFinj : Function.Injective (fun x => WEvent.added (joinPath watchPath x)) := by
    intro x y hxy
    exact joinPath_injective watchPath (WEvent.added.inj hxy)
  have hGinj : Function.Injective (fun x => WEvent.removed (joinPath watchPath x)) := by
    intro x y hxy
    exact joinPath_injective watchPath (WEvent.removed.inj hxy)
  refine ⟨by simp [pollTick, hset], ?_, by simp [pollDirectoryStart]⟩
  intro n
  constructor
  · rw [hev, List.count_append]
    have h0 : ((prev.filter (fun f => !(jsSetHas current f))).map
        (fun f => WEvent.removed (joinPath watchPath f))).count
          (WEvent.added (joinPath watchPath n)) = 0 := by
      apply List.count_eq_zero.mpr
      simp [List.mem_map]
    rw [h0, Nat.add_zero, List.count_map_of_injective _ _ hFinj]
    by_cases hmem : n ∈ current ∧ n ∉ prev
    · rw [if_pos hmem]
      have hA : n ∈ current.filter (fun f => !(jsSetHas prev f)) :=
        List.mem_filter.mpr ⟨hmem.1, by simp [jsSetHas, hmem.2]⟩
      exact List.nodup_iff_count_eq_one.mp (hC.filter _) n hA
    · rw [if_neg hmem]
      apply List.count_eq_zero.mpr
      intro hA
      have := List.mem_filter.mp hA
      exact hmem ⟨this.1, by simpa [jsSetHas] using this.2⟩
  · rw [hev, List.count_append]
    have h0 : ((current.filter (fun f => !(jsSetHas prev f))).map
        (fun f => WEvent.added (joinPath watchPath f))).count
          (WEvent.removed (joinPath watchPath n)) = 0 := by
      apply List.count_eq_zero.mpr
      simp [List.mem_map]
    rw [h0, Nat.zero_add, List.count_map_of_injective _ _ hGinj]
    by_cases hmem : n ∈ prev ∧ n ∉ current
    · rw [if_pos hmem]
      have hR : n ∈ prev.filter (fun f => !(jsSetHas current f)) :=
        List.mem_filter.mpr ⟨hmem.1, by simp [jsSetHas, hmem.2]⟩
      exact List.nodup_iff_count_eq_one.mp (hP.filter _) n hR
    · rw [if_neg hmem]
      apply List.count_eq_zero.mpr
      intro hR
      have := List.mem_filter.mp hR
      exact hmem ⟨this.1, by simpa [jsSetHas] using this.2⟩

/-- Witness for claim C3: from previous set a, b and listing b, c the
tick emits exactly one removed for a, exactly one added for c and
nothing for b, and the previous set becomes b, c. -/
theorem pollTick_diff_witness :
    ((pollTick "/w" ["a", "b"] ["b", "c"]).1 = ["b", "c"]) ∧
    ((pollTick "/w" ["a", "b"] ["b", "c"]).2.count (WEvent.added (joinPath "/w" "c")) = 1) ∧
    ((pollTick "/w" ["a", "b"] ["b", "c"]).2.count (WEvent.removed (joinPath "/w" "a")) = 1) ∧
    ((pollTick "/w" ["a", "b"] ["b", "c"]).2.count (WEvent.added (joinPath "/w" "b")) = 0) ∧
    ((pollTick "/w" ["a", "b"] ["b", "c"]).2.count (WEvent.removed (joinPath "/w" "b")) = 0) ∧
    PollAction.pollNow ∈ pollDirectoryStart 500 := by
  have h := pollTick_diff "/w" ["a", "b"] ["b", "c"] 500 (by decide) (by decide)
  refine ⟨h.1, ?_, ?_, ?_, ?_, h.2.2⟩
  · exact ((h.2.1 "c").1).trans (by decide)
  · exact ((h.2.1 "a").2).trans (by decide)
  · exact ((h.2.1 "b").1).trans (by decide)
  · exact ((h.2.1 "b").2).trans (by decide)

/-- The stop path of the directory watcher never schedules a restart. -/
theorem dwStop_no_schedule (st : WatcherState) :
    (dwStop st).2.filterMap scheduleDelayOf = [] := by
  rcases st with ⟨pid, w, iw⟩
  cases pid <;> cases iw <;> cases w <;> simp [dwStop, baseStop, scheduleDelayOf]

/-- One native watch error schedules exactly one restart, 1000 ms out. -/
theorem onNativeWatchError_schedule (st : WatcherState) :
    (onNativeWatchError st).2.filterMap scheduleDelayOf = [1000] := by
  simp [onNativeWatchError, recoverWatcher, List.filterMap_append, dwStop_no_schedule,
    scheduleDelayOf]

/-- Claim C8: every native watch error makes the handler emit the error
event, perform the full stop of the current watch and schedule exactly
one start() retry a fixed 1000 ms later, and across n successive errors
the scheduled delays are n copies of 1000 — no retry cap and no backoff
growth, whatever the watcher state. -/
theorem watchError_fixed_restart (st : WatcherState) (n : Nat) :
    ((onNativeWatchError st).2 =
      .emitErrorEvent :: ((dwStop st).2 ++ [.scheduleStart 1000])) ∧
    ((onNativeWatchError st).2.filterMap scheduleDelayOf = [1000]) ∧
    (watchErrorDelays st n = List.replicate n 1000) := by
  refine ⟨rfl, onNativeWatchError_schedule st, ?_⟩
  induction n generalizing st with
  | zero => simp [watchErrorDelays]
  | succ m ih =>
    simp [watchErrorDelays, onNativeWatchError_schedule, ih, List.replicate_succ]

/-- Claim C10: in polling mode, start() installs only the interval timer
and leaves the watching flag and native handle untouched, so a subsequent
stop() clears the active polling interval but emits no stopped event; and
in general the stopped event is emitted exactly when the watching flag is
set and a native watch handle is held at the time of stop(). -/
theorem pollingStop_no_stopped_event (st : WatcherState) (ms id : Nat)
    (h : st.isWatching = false) :
    ((dwStartPolling st ms id).1.isWatching = false) ∧
    ((dwStartPolling st ms id).1.watcher = st.watcher) ∧
    ((dwStop (dwStartPolling st ms id).1).1.pollingIntervalId = none) ∧
    (WAction.clearPollInterval id ∈ (dwStop (dwStartPolling st ms id).1).2) ∧
    (WAction.emitStopped ∉ (dwStop (dwStartPolling st ms id).1).2) ∧
    (∀ st2 : WatcherState,
      (WAction.emitStopped ∈ (dwStop st2).2) ↔
        (st2.isWatching = true ∧ st2.watcher.isSome = true)) := by
  rcases st with ⟨pid, w, iw⟩
  simp only [WatcherState.isWatching] at h
  subst h
  refine ⟨rfl, rfl, ?_, ?_, ?_, ?_⟩
  · cases w <;> simp [dwStartPolling, dwStop, baseStop, pollDirectoryStart]
  · cases w <;> simp [dwStartPolling, dwStop, baseStop, pollDirectoryStart]
  · cases w <;> simp [dwStartPolling, dwStop, baseStop, pollDirectoryStart]
  · intro st2
    rcases st2 with ⟨pid2, w2, iw2⟩
    cases pid2 <;> cases iw2 <;> cases w2 <;> simp [dwStop, baseStop]

/-- Witness for claim C10: a freshly constructed watcher started in
polling mode and then stopped clears its interval and emits nothing. -/
theorem pollingStop_no_stopped_event_witness :
    ((dwStartPolling ⟨none, none, false⟩ 500 7).1.isWatching = false) ∧
    ((dwStop (dwStartPolling ⟨none, none, false⟩ 500 7).1).1.pollingIntervalId = none) ∧
    (WAction.clearPollInterval 7 ∈ (dwStop (dwStartPolling ⟨none, none, false⟩ 500 7).1).2) ∧
    (WAction.emitStopped ∉ (dwStop (dwStartPolling ⟨none, none, false⟩ 500 7).1).2) := by
  have h := pollingStop_no_stopped_event ⟨none, none, false⟩ 500 7 rfl
  exact ⟨h.1, h.2.2.1, h.2.2.2.1, h.2.2.2.2.1⟩

/-- Sequencing two validation steps fails exactly when one of them does. -/
theorem firstErr_isSome (a b : Option String) :
    (firstErr a b).isSome = (a.isSome || b.isSome) := by
  cases a <;> simp [firstErr]

/-- Claim C7: for a not-yet-open controller, any options object carrying
an encoding outside the supported encoding set, a flag outside the
supported flag set, a non-numeric mode, start or highWaterMark, or a
non-boolean autoClose or emitClose makes open() fail with a validation
error during its synchronous body, with zero native filesystem calls and
the state unchanged. -/
theorem validation_before_native (st : WriteStreamState) (filePath : String)
    (o : StreamOptionsObject) (newHandle : Nat) (hclosed : st.isOpen = false)
    (hinvalid :
      (∃ v, o.encoding = some v ∧ bufferEncodingsHas v = false) ∨
      (∃ v, o.flags = some v ∧ allowedFlagsHas v = false) ∨
      (∃ v, (o.mode = some v ∨ o.start = some v ∨ o.highWaterMark = some v) ∧
        v.isNumber = false) ∨
      (∃ v, (o.autoClose = some v ∨ o.emitClose = some v) ∧ v.isBoolean = false)) :
    ((openBody st filePath (.objOpt o) newHandle).1 = st) ∧
    ((openBody st filePath (.objOpt o) newHandle).2.1 = []) ∧
    (isValidationFailure (openBody st filePath (.objOpt o) newHandle).2.2 = true) := by
  have hsome : (validateStreamOptionsObject o).isSome = true := by
    rcases hinvalid with ⟨v, he, hv⟩ | ⟨v, hf, hv⟩ | ⟨v, hd, hv⟩ | ⟨v, hd, hv⟩
    · simp [validateStreamOptionsObject, firstErr_isSome, checkField, he, hv]
    · simp [validateStreamOptionsObject, firstErr_isSome, checkField, hf, hv]
    · rcases hd with h1 | h1 | h1 <;>
        simp [validateStreamOptionsObject, firstErr_isSome, checkField, h1, hv]
    · rcases hd with h1 | h1 <;>
        simp [validateStreamOptionsObject, firstErr_isSome, checkField, h1, hv]
  obtain ⟨msg, hmsg⟩ := Option.isSome_iff_exists.mp hsome
  simp [openBody, hclosed, validateStreamOptions, hmsg, isValidationFailure]

/-- Witness for claim C7: an unsupported encoding string is rejected with
a validation failure and zero native calls on a fresh controller. -/
theorem validation_before_native_witness :
    ((openBody ⟨none, false⟩ "/tmp/x"
      (.objOpt { encoding := some (.str "not-a-real-encoding") }) 0).1 = ⟨none, false⟩) ∧
    ((openBody ⟨none, false⟩ "/tmp/x"
      (.objOpt { encoding := some (.str "not-a-real-encoding") }) 0).2.1 = []) ∧
    (isValidationFailure (openBody ⟨none, false⟩ "/tmp/x"
      (.objOpt { encoding := some (.str "not-a-real-encoding") }) 0).2.2 = true) :=
  validation_before_native ⟨none, false⟩ "/tmp/x"
    { encoding := some (.str "not-a-real-encoding") } 0 rfl
    (Or.inl ⟨.str "not-a-real-encoding", rfl, by decide⟩)

/-- Claim C9 (code bug, divergence witness): two successive stat
snapshots whose modification times are the same instant are still
distinct Date objects, so the polling comparator of FileWatcher, which
uses strict object inequality, emits a changed event even though the
modification time is unchanged. -/
theorem fileWatcher_emits_changed_on_equal_mtime :
    fileWatcherPollCallback "/w/f.txt" ⟨1700000000000, 2⟩ ⟨1700000000000, 1⟩ =
      [.changed "/w/f.txt"] ∧
    (JsDate.mk 1700000000000 2).timeMs = (JsDate.mk 1700000000000 1).timeMs :=
  ⟨rfl, rfl⟩

end Fylo
